import Mathlib

/-!
# whalesurvey: statistics aggregation and survey repository

Shallow embedding of `models/service.go`, `models/survey.go` and
`handlers/handle_survey_submit.go`.

Modelling conventions

* Go `uint` identifiers are `Nat`; Go `int` / `int64` values (counts, ratings,
  orders) are `Int`.  The sum of ratings, which are values supplied by the
  caller, wraps to 64 bits as Go's `int` does (`wrapInt`).  Sums of row counts
  cannot leave the 64-bit range on a real store and are plain integer sums.
* Go `float64` values are rationals (`ℚ`) with exact `/` and `*`.  The
  conversion `float64(n)` of the rating sum rounds to 53 significant bits
  (`float64OfInt`); the conversion of a row count is the cast of the count.
* A `time.Time` is a `Time`: its instant and the offset of its zone.
  `time.Now()` is an argument `now` of the operation that calls it.
* A nil slice and an empty slice are both `[]`; a nil pointer is `none`.
* Go struct `Option` is `QOption` and field `Question.Type` is `Question.Type_`
  (the source names are taken by the host language).  Relation fields that no
  modelled function reads (`Question.Options`, `Question.Answers`,
  `Response.Answers`, ...) are left out of the row structures.
-/

namespace WhaleSurvey

/-! ## Data model (`models/survey.go`) -/

/-- A Go `time.Time` as `time.Now()` yields it: the instant (`UnixNano`,
nanoseconds since the epoch) and the offset of the zone of the time, in seconds
east of UTC. -/
structure Time where
  unixNano : Nat
  offset : Int
deriving DecidableEq, Repr

/-- The instant `n` in zone UTC. -/
def Time.utc (n : Nat) : Time :=
  { unixNano := n, offset := 0 }

/-- Row of table `questions`. -/
structure Question where
  ID : Nat
  SurveyID : Nat
  Type_ : String
  Question : String
  Required : Bool
  Order : Int
  CreatedAt : Time
  UpdatedAt : Time
deriving DecidableEq, Repr

/-- Row of table `options` (Go struct `Option`). -/
structure QOption where
  ID : Nat
  QuestionID : Nat
  Text : String
  Order : Int
  CreatedAt : Time
deriving DecidableEq, Repr

/-- Row of table `surveys`; `Questions` is the has-many relation that
`Preload` fills in. -/
structure Survey where
  ID : Nat
  Title : String
  Description : String
  IsActive : Bool
  CreatedAt : Time
  UpdatedAt : Time
  Questions : List Question
deriving DecidableEq, Repr

/-- Row of table `responses`. -/
structure Response where
  ID : Nat
  SurveyID : Nat
  UserID : Option String
  IPAddress : String
  UserAgent : String
  StartedAt : Time
  CompletedAt : Option Time
  IsComplete : Bool
deriving DecidableEq, Repr

/-- Row of table `answers`. -/
structure Answer where
  ID : Nat
  ResponseID : Nat
  QuestionID : Nat
  AnswerText : String
  OptionID : Option Nat
  Rating : Option Int
  CreatedAt : Time
deriving DecidableEq, Repr

/-- Go struct `SurveyStats`. -/
structure SurveyStats where
  SurveyID : Nat
  TotalResponses : Int
  CompletionRate : ℚ
  AverageTime : ℚ
deriving DecidableEq

/-- Go struct `OptionStat`. -/
structure OptionStat where
  OptionID : Nat
  OptionText : String
  Count : Int
  Percentage : ℚ
deriving DecidableEq

/-- Go struct `RatingStats`. -/
structure RatingStats where
  Average : ℚ
  Min : Int
  Max : Int
  Count : Int
deriving DecidableEq

/-- Go struct `QuestionStats`. -/
structure QuestionStats where
  QuestionID : Nat
  QuestionType : String
  ResponseCount : Int
  OptionStats : List OptionStat
  TextAnswers : List String
  RatingStats : Option RatingStats
deriving DecidableEq

/-- Go struct `AnswerInput`. -/
structure AnswerInput where
  QuestionID : Nat
  AnswerText : String
  OptionID : Option Nat
  Rating : Option Int
deriving DecidableEq, Repr

/-! ## The store as seen by the statistics engine

Every read of `service.go` is one gorm statement writing into a destination
variable.  `QResult` records what the statement leaves behind: the destination
value and the statement's `Error` field.  The service reads `Error` for some
statements and drops it for others; the embedding keeps that difference. -/

/-- Outcome of one gorm read statement. -/
structure QResult (α : Type) where
  dest : α
  err : Option String

/-- The read statements issued by `GetSurveyStats`, `GetQuestionStats` and their
helpers, each keyed by the arguments bound into its `Where` clause. -/
structure Store where
  /-- `Where("survey_id = ? AND is_complete = ?", id, true).Count` (line 196). -/
  countCompleted : Nat → QResult Int
  /-- `Where("survey_id = ?", id).Count` (line 201). -/
  countStarted : Nat → QResult Int
  /-- `Select("AVG(...) * 86400").Scan` (lines 209-212). -/
  avgTime : Nat → QResult ℚ
  /-- `Where("survey_id = ?", id).Preload("Options").Find` (line 221). -/
  findQuestions : Nat → QResult (List Question)
  /-- Joined count of answers of a question in completed responses (lines 235-238). -/
  countAnswers : Nat → QResult Int
  /-- `Where("question_id = ?", id).Find` on options (line 258). -/
  findOptions : Nat → QResult (List QOption)
  /-- Joined count of answers selecting an option (lines 263-266). -/
  countOptionAnswers : Nat → QResult Int
  /-- `Pluck("answers.rating")` of a question (lines 292-295). -/
  pluckRatings : Nat → QResult (List Int)
  /-- `Order(created_at DESC).Limit(limit).Pluck("answers.answer_text")`
  of a question (lines 324-329). -/
  pluckTexts : Nat → Nat → QResult (List String)

/-! ## Statistics engine (`models/service.go`, lines 189-332) -/

/-- `SurveyService.GetSurveyStats`.  None of the three statements has its
`Error` read; the function returns `&stats, nil` on every path. -/
def GetSurveyStats (s : Store) (surveyID : Nat) : Except String SurveyStats :=
  let totalResponses := (s.countCompleted surveyID).dest
  let totalStarted := (s.countStarted surveyID).dest
  let completionRate : ℚ :=
    if 0 < totalStarted then (totalResponses : ℚ) / (totalStarted : ℚ) * 100 else 0
  let avgTime := (s.avgTime surveyID).dest
  .ok { SurveyID := surveyID, TotalResponses := totalResponses,
        CompletionRate := completionRate, AverageTime := avgTime }

/-- First loop of `getOptionStats` (lines 260-274): one record per option,
appended in iteration order, `Percentage` still at its zero value. -/
def optionCounts (s : Store) (options : List QOption) : List OptionStat :=
  options.foldl
    (fun stats option =>
      stats ++ [{ OptionID := option.ID, OptionText := option.Text,
                  Count := (s.countOptionAnswers option.ID).dest, Percentage := 0 }])
    []

/-- Second loop of `getOptionStats` (lines 277-280): `total += stat.Count`. -/
def optionTotal (stats : List OptionStat) : Int :=
  stats.foldl (fun total stat => total + stat.Count) 0

/-- `SurveyService.getOptionStats`. -/
def getOptionStats (s : Store) (questionID : Nat) : List OptionStat :=
  let options := (s.findOptions questionID).dest
  let stats := optionCounts s options
  let total := optionTotal stats
  if 0 < total then
    stats.map (fun stat => { stat with Percentage := (stat.Count : ℚ) / (total : ℚ) * 100 })
  else stats

/-- Value of a Go `int` expression on a 64-bit platform: the mathematical
result wrapped into the range from -2^63 to 2^63 - 1. -/
def wrapInt (n : Int) : Int :=
  (n + 2 ^ 63) % 2 ^ 64 - 2 ^ 63

/-- Magnitude of `float64(n)` for a magnitude `m` below 2^64: `m` itself when
it has at most 53 significant bits, otherwise `m` rounded to 53 bits, to
nearest with ties to even. -/
def roundTo53 (m : Nat) : Nat :=
  if m < 2 ^ 53 then m
  else
    let shift := ((List.range 12).find? (fun k => decide (m / 2 ^ k < 2 ^ 53))).getD 11
    let q := m / 2 ^ shift
    let r := m % 2 ^ shift
    let half := 2 ^ (shift - 1)
    (if half < r ∨ (r = half ∧ q % 2 = 1) then q + 1 else q) * 2 ^ shift

/-- Go conversion `float64(n)` of an `int`. -/
def float64OfInt (n : Int) : ℚ :=
  if n < 0 then -((roundTo53 n.natAbs : Nat) : ℚ) else ((roundTo53 n.natAbs : Nat) : ℚ)

/-- Loop of `getRatingStats` (lines 301-312): running `sum`, `min`, `max`;
`sum += rating` is an `int` addition. -/
def ratingLoop (ratings : List Int) (init : Int × Int × Int) : Int × Int × Int :=
  ratings.foldl
    (fun acc rating =>
      (wrapInt (acc.1 + rating),
       if rating < acc.2.1 then rating else acc.2.1,
       if rating > acc.2.2 then rating else acc.2.2))
    init

/-- `SurveyService.getRatingStats`. -/
def getRatingStats (s : Store) (questionID : Nat) : Option RatingStats :=
  match (s.pluckRatings questionID).dest with
  | [] => none
  | r0 :: rest =>
    let ratings := r0 :: rest
    let acc := ratingLoop ratings (0, r0, r0)
    some { Average := float64OfInt acc.1 / float64OfInt (ratings.length : Int),
           Min := acc.2.1, Max := acc.2.2, Count := (ratings.length : Int) }

/-- `SurveyService.getTextAnswers`. -/
def getTextAnswers (s : Store) (questionID : Nat) (limit : Nat) : List String :=
  (s.pluckTexts questionID limit).dest

/-- Body of the loop of `GetQuestionStats` (lines 228-250): the record built
for one question. -/
def questionStat (s : Store) (question : Question) : QuestionStats :=
  let stat : QuestionStats :=
    { QuestionID := question.ID, QuestionType := question.Type_,
      ResponseCount := (s.countAnswers question.ID).dest,
      OptionStats := [], TextAnswers := [], RatingStats := none }
  if question.Type_ = "multiple_choice" ∨ question.Type_ = "checkbox" then
    { stat with OptionStats := getOptionStats s question.ID }
  else if question.Type_ = "rating" then
    { stat with RatingStats := getRatingStats s question.ID }
  else if question.Type_ = "text" then
    { stat with TextAnswers := getTextAnswers s question.ID 10 }
  else stat

/-- `SurveyService.GetQuestionStats`.  Only the question query has its
`Error` read. -/
def GetQuestionStats (s : Store) (surveyID : Nat) : Except String (List QuestionStats) :=
  let r := s.findQuestions surveyID
  match r.err with
  | some e => .error e
  | none => .ok (r.dest.foldl (fun stats question => stats ++ [questionStat s question]) [])

/-! ## The relational store

A database state is the five tables, each a list of rows in the order the store
holds them.  A statement without `ORDER BY` yields the matching rows in that
order.  The statements of a healthy store succeed (`err = none`). -/

/-- Database state: the tables of `AutoMigrate` (survey.go, line 85). -/
structure DB where
  surveys : List Survey
  questions : List Question
  options : List QOption
  responses : List Response
  answers : List Answer

/-- The empty database. -/
def DB.empty : DB :=
  { surveys := [], questions := [], options := [], responses := [], answers := [] }

/-- Primary key the store gives a new row: one more than the largest key in
the table. -/
def nextID (ids : List Nat) : Nat :=
  ids.foldl max 0 + 1

/-- `answers JOIN responses ON answers.response_id = responses.id`. -/
def joinAnswers (db : DB) : List (Answer × Response) :=
  db.answers.flatMap (fun a =>
    (db.responses.filter (fun r => r.ID = a.ResponseID)).map (fun r => (a, r)))

/-- Wall-clock reading of a time in its own zone, in nanoseconds since the
epoch: the part `2006-01-02 15:04:05.999999999` of the text the SQLite driver
stores for a `time.Time`.  For years of four digits the text order of that part
is the numeric order of this reading. -/
def Time.wall (t : Time) : Int :=
  (t.unixNano : Int) + t.offset * 1000000000

/-- Zone suffix `-07:00` of the stored text as a text comparison sees it: the
sign character (`+` sorts before `-`), then the whole minutes of the offset. -/
def Time.zoneKey (t : Time) : Nat × Nat :=
  let zone := Int.tdiv t.offset 60
  (if zone < 0 then 1 else 0, zone.natAbs)

/-- Order of two stored `created_at` values under SQLite's comparison of the
stored texts: by wall-clock reading, then by zone suffix. -/
def Time.storedLE (a b : Time) : Prop :=
  a.wall < b.wall ∨
    (a.wall = b.wall ∧
      (a.zoneKey.1 < b.zoneKey.1 ∨ (a.zoneKey.1 = b.zoneKey.1 ∧ a.zoneKey.2 ≤ b.zoneKey.2)))

instance Time.decStoredLE : DecidableRel Time.storedLE :=
  fun a b => by unfold Time.storedLE; infer_instance

/-- `ORDER BY answers.created_at DESC` on joined rows: the column holds the
text written from `time.Now()` (service.go, line 164), local time with its zone
offset, and the statement compares those texts. -/
def orderByCreatedAtDesc (rows : List (Answer × Response)) : List (Answer × Response) :=
  rows.insertionSort (fun x y => Time.storedLE y.1.CreatedAt x.1.CreatedAt)

/-- Joined rows selected by the `Where` clause of `getTextAnswers` (line 326). -/
def textRows (db : DB) (questionID : Nat) : List (Answer × Response) :=
  (joinAnswers db).filter
    (fun p => p.1.QuestionID = questionID ∧ p.2.IsComplete = true ∧ p.1.AnswerText ≠ "")

/-- Rows a healthy store yields for the statement of `getTextAnswers`
(lines 324-329), before the `Pluck`. -/
def recentTextRows (db : DB) (questionID limit : Nat) : List (Answer × Response) :=
  (orderByCreatedAtDesc (textRows db questionID)).take limit

/-- `AVG(julianday(completed_at) - julianday(started_at)) * 86400` over the
responses of a survey with `completed_at IS NOT NULL`, in seconds. -/
def avgCompletionSeconds (db : DB) (surveyID : Nat) : ℚ :=
  let durations : List ℚ := (db.responses.filter (fun r => r.SurveyID = surveyID)).filterMap
    (fun r => r.CompletedAt.map (fun c =>
      (((c.unixNano : Int) - (r.StartedAt.unixNano : Int) : Int) : ℚ) / 1000000000))
  if durations = [] then 0 else durations.sum / (durations.length : ℚ)

/-- The read statements of the statistics engine evaluated on a healthy
database. -/
def DB.toStore (db : DB) : Store where
  countCompleted := fun surveyID =>
    { dest := ((db.responses.filter
        (fun r => r.SurveyID = surveyID ∧ r.IsComplete = true)).length : Int), err := none }
  countStarted := fun surveyID =>
    { dest := ((db.responses.filter (fun r => r.SurveyID = surveyID)).length : Int),
      err := none }
  avgTime := fun surveyID => { dest := avgCompletionSeconds db surveyID, err := none }
  findQuestions := fun surveyID =>
    { dest := db.questions.filter (fun q => q.SurveyID = surveyID), err := none }
  countAnswers := fun questionID =>
    { dest := (((joinAnswers db).filter
        (fun p => p.1.QuestionID = questionID ∧ p.2.IsComplete = true)).length : Int),
      err := none }
  findOptions := fun questionID =>
    { dest := db.options.filter (fun o => o.QuestionID = questionID), err := none }
  countOptionAnswers := fun optionID =>
    { dest := (((joinAnswers db).filter
        (fun p => p.1.OptionID = some optionID ∧ p.2.IsComplete = true)).length : Int),
      err := none }
  pluckRatings := fun questionID =>
    { dest := ((joinAnswers db).filter
        (fun p => p.1.QuestionID = questionID ∧ p.2.IsComplete = true)).filterMap
          (fun p => p.1.Rating),
      err := none }
  pluckTexts := fun questionID limit =>
    { dest := (recentTextRows db questionID limit).map (fun p => p.1.AnswerText),
      err := none }

/-! ## Repository operations (`models/service.go`, lines 37-179) -/

/-- `COALESCE(MAX("order"), 0)` over the questions of a survey (line 101). -/
def maxOrder (db : DB) (surveyID : Nat) : Int :=
  match (db.questions.filter (fun q => q.SurveyID = surveyID)).map (fun q => q.Order) with
  | [] => 0
  | o :: os => os.foldl max o

/-- `SurveyService.AddQuestion` on a healthy database. -/
def AddQuestion (db : DB) (surveyID : Nat) (questionType question : String)
    (required : Bool) (options : List String) (now : Time) : DB × Except String Question :=
  let maxOrder := maxOrder db surveyID
  let q : Question :=
    { ID := nextID (db.questions.map (fun x => x.ID)), SurveyID := surveyID,
      Type_ := questionType, Question := question, Required := required,
      Order := maxOrder + 1, CreatedAt := now, UpdatedAt := now }
  let db1 : DB := { db with questions := db.questions ++ [q] }
  let db2 : DB := options.enum.foldl
    (fun d io =>
      { d with options := d.options ++
          [{ ID := nextID (d.options.map (fun x => x.ID)), QuestionID := q.ID,
             Text := io.2, Order := (io.1 : Int) + 1, CreatedAt := now }] })
    db1
  (db2, .ok q)

/-- `SurveyService.DeleteSurvey` on a healthy database: the five `Delete`
statements of the transaction, in source order. -/
def DeleteSurvey (db : DB) (id : Nat) : DB × Option String :=
  let responseIDs := (db.responses.filter (fun r => r.SurveyID = id)).map (fun r => r.ID)
  let answers := db.answers.filter (fun a => a.ResponseID ∉ responseIDs)
  let responses := db.responses.filter (fun r => r.SurveyID ≠ id)
  let questionIDs := (db.questions.filter (fun q => q.SurveyID = id)).map (fun q => q.ID)
  let options := db.options.filter (fun o => o.QuestionID ∉ questionIDs)
  let questions := db.questions.filter (fun q => q.SurveyID ≠ id)
  let surveys := db.surveys.filter (fun s => s.ID ≠ id)
  ({ surveys := surveys, questions := questions, options := options,
     responses := responses, answers := answers }, none)

/-- The `Answer` row that `SubmitResponse` creates for one input
(lines 158-165). -/
def answerRow (id responseID : Nat) (now : Time) (answerInput : AnswerInput) : Answer :=
  { ID := id, ResponseID := responseID, QuestionID := answerInput.QuestionID,
    AnswerText := answerInput.AnswerText, OptionID := answerInput.OptionID,
    Rating := answerInput.Rating, CreatedAt := now }

/-- `SurveyService.SubmitResponse` on a healthy database. -/
def SubmitResponse (db : DB) (surveyID : Nat) (userID : Option String)
    (ipAddress userAgent : String) (answers : List AnswerInput) (now : Time) :
    DB × Except String Response :=
  let response : Response :=
    { ID := nextID (db.responses.map (fun x => x.ID)), SurveyID := surveyID,
      UserID := userID, IPAddress := ipAddress, UserAgent := userAgent,
      StartedAt := now, CompletedAt := some now, IsComplete := true }
  let db1 : DB := { db with responses := db.responses ++ [response] }
  let db2 : DB := answers.foldl
    (fun d answerInput =>
      { d with answers := d.answers ++
          [answerRow (nextID (d.answers.map (fun x => x.ID))) response.ID now answerInput] })
    db1
  (db2, .ok response)

/-- `SurveyService.GetSurvey`: the survey row with its questions preloaded. -/
def GetSurvey (db : DB) (id : Nat) : Except String Survey :=
  match db.surveys.find? (fun s => s.ID = id) with
  | none => .error "survey not found"
  | some survey => .ok { survey with Questions := db.questions.filter (fun q => q.SurveyID = id) }

/-! ## Submit handler (`handlers/handle_survey_submit.go`) -/

/-- Outcome of a fiber handler: one of the error statuses used by the handler,
or a redirect. -/
inductive HTTPResult where
  | ErrBadRequest
  | ErrNotFound
  | ErrInternalServerError
  | Redirect (location : String)
deriving DecidableEq, Repr

/-- `strconv.ParseUint(s, 10, 64)`: a non-empty string of decimal digits
whose value fits 64 bits. -/
def ParseUint (s : String) : Option Nat :=
  if s.data = [] ∨ ¬ s.data.all Char.isDigit then none
  else
    let n := s.data.foldl (fun n c => n * 10 + (c.toNat - 48)) 0
    if n < 2 ^ 64 then some n else none

/-- `fmt.Sprintf("question_%d", id)`. -/
def formKey (id : Nat) : String :=
  "question_" ++ toString id

/-- Loop of `HandleSurveySubmit` (lines 24-34); `form` is `c.FormValue`. -/
def collectAnswers (questions : List Question) (form : String → String) : List AnswerInput :=
  questions.foldl
    (fun answers question =>
      let value := form (formKey question.ID)
      if value ≠ "" then
        answers ++ [{ QuestionID := question.ID, AnswerText := value,
                      OptionID := none, Rating := none }]
      else answers)
    []

/-- `HandleSurveySubmit`: `idStr` is the route parameter, `form` the form
values, `ip` and `userAgent` the request metadata. -/
def HandleSurveySubmit (db : DB) (idStr : String) (form : String → String)
    (ip userAgent : String) (now : Time) : DB × HTTPResult :=
  match ParseUint idStr with
  | none => (db, .ErrBadRequest)
  | some id =>
    match GetSurvey db id with
    | .error _ => (db, .ErrNotFound)
    | .ok survey =>
      let answers := collectAnswers survey.Questions form
      match SubmitResponse db id none ip userAgent answers now with
      | (_, .error _) => (db, .ErrInternalServerError)
      | (db1, .ok _) => (db1, .Redirect ("/surveys/" ++ toString id ++ "/results"))

/-! ## Operation sequences -/

/-- One repository operation of a sequence: an `AddQuestion` call or a
`DeleteSurvey` call, with its arguments. -/
inductive Op where
  | addQuestion (surveyID : Nat) (questionType question : String) (required : Bool)
      (options : List String) (now : Time)
  | deleteSurvey (id : Nat)

/-- The `Order` values that the `AddQuestion` calls of a sequence assign to
questions of survey `surveyID`, in call order, starting from state `db`. -/
def assignedOrders (surveyID : Nat) : DB → List Op → List Int
  | _, [] => []
  | db, Op.addQuestion sid questionType question required options now :: ops =>
    match AddQuestion db sid questionType question required options now with
    | (db1, .ok q) =>
      (if sid = surveyID then [q.Order] else []) ++ assignedOrders surveyID db1 ops
    | (db1, .error _) => assignedOrders surveyID db1 ops
  | db, Op.deleteSurvey id :: ops => assignedOrders surveyID (DeleteSurvey db id).1 ops

/-! ## Concrete stores used in the scenarios -/

/-- A store whose every statement succeeds with the zero value. -/
def Store.zero : Store where
  countCompleted := fun _ => { dest := 0, err := none }
  countStarted := fun _ => { dest := 0, err := none }
  avgTime := fun _ => { dest := 0, err := none }
  findQuestions := fun _ => { dest := [], err := none }
  countAnswers := fun _ => { dest := 0, err := none }
  findOptions := fun _ => { dest := [], err := none }
  countOptionAnswers := fun _ => { dest := 0, err := none }
  pluckRatings := fun _ => { dest := [], err := none }
  pluckTexts := fun _ _ => { dest := [], err := none }

/-- Scenario A: 3 completed responses out of 5 started. -/
def scenarioA : Store :=
  { Store.zero with
    countCompleted := fun _ => { dest := 3, err := none }
    countStarted := fun _ => { dest := 5, err := none } }

/-- Scenario B: options A (3 votes) and B (1 vote). -/
def scenarioB : Store :=
  { Store.zero with
    findOptions := fun questionID =>
      { dest := [{ ID := 1, QuestionID := questionID, Text := "A", Order := 1, CreatedAt := Time.utc 0 },
                 { ID := 2, QuestionID := questionID, Text := "B", Order := 2, CreatedAt := Time.utc 0 }],
        err := none }
    countOptionAnswers := fun optionID =>
      { dest := if optionID = 1 then 3 else 1, err := none } }

/-- Scenario C: ratings 4, 5, 3. -/
def scenarioC : Store :=
  { Store.zero with pluckRatings := fun _ => { dest := [4, 5, 3], err := none } }

/-- A store in which the statements on `responses` and the per-question answer
count fail (as with a locked database): they leave their destination at its
zero value and set `Error`; the question query succeeds with one text
question. -/
def failingStore : Store :=
  { Store.zero with
    countCompleted := fun _ => { dest := 0, err := some "database is locked" }
    countStarted := fun _ => { dest := 0, err := some "database is locked" }
    findQuestions := fun surveyID =>
      { dest := [{ ID := 4, SurveyID := surveyID, Type_ := "text", Question := "Comments?",
                   Required := false, Order := 1, CreatedAt := Time.utc 0, UpdatedAt := Time.utc 0 }],
        err := none }
    countAnswers := fun _ => { dest := 0, err := some "database is locked" }
    pluckTexts := fun _ _ => { dest := [], err := some "database is locked" } }

/-- A question row of survey 1 with the given ID and type tag. -/
def typedQuestion (id : Nat) (type : String) : Question :=
  { ID := id, SurveyID := 1, Type_ := type, Question := "q", Required := false,
    Order := (id : Int), CreatedAt := Time.utc 0, UpdatedAt := Time.utc 0 }

/-- A store holding one question of each type tag, with an unrecognised one. -/
def dispatchStore : Store :=
  { scenarioB with
    findQuestions := fun _ =>
      { dest := [typedQuestion 1 "multiple_choice", typedQuestion 2 "checkbox",
                 typedQuestion 3 "rating", typedQuestion 4 "text", typedQuestion 5 "date"],
        err := none }
    countAnswers := fun _ => { dest := 4, err := none }
    pluckRatings := fun _ => { dest := [4, 5, 3], err := none }
    pluckTexts := fun _ limit => { dest := ["great", "fine"].take limit, err := none } }

/-- A database that holds the two questions of survey 1 in an order other
than their `Order`: the row with `Order` 2 comes first. -/
def unorderedDB : DB :=
  { DB.empty with
    questions :=
      [{ ID := 1, SurveyID := 1, Type_ := "text", Question := "second", Required := false,
         Order := 2, CreatedAt := Time.utc 0, UpdatedAt := Time.utc 0 },
       { ID := 2, SurveyID := 1, Type_ := "text", Question := "first", Required := false,
         Order := 1, CreatedAt := Time.utc 0, UpdatedAt := Time.utc 0 }] }

/-- The text answer written at time `t` into response 1 for question 1. -/
def textAnswerAt (t : Nat) : Answer :=
  { ID := t, ResponseID := 1, QuestionID := 1, AnswerText := "answer " ++ toString t,
    OptionID := none, Rating := none, CreatedAt := Time.utc t }

/-- Scenario E: a text question with 15 answers written at times 1 to 15 (held
in an arbitrary row order) in one completed response. -/
def scenarioE : DB :=
  { DB.empty with
    questions :=
      [{ ID := 1, SurveyID := 1, Type_ := "text", Question := "Comments?", Required := false,
         Order := 1, CreatedAt := Time.utc 0, UpdatedAt := Time.utc 0 }]
    responses :=
      [{ ID := 1, SurveyID := 1, UserID := none, IPAddress := "", UserAgent := "",
         StartedAt := Time.utc 0, CompletedAt := some (Time.utc 20), IsComplete := true }]
    answers := [3, 11, 7, 15, 1, 9, 13, 5, 2, 4, 6, 8, 10, 12, 14].map textAnswerAt }

/-- Add a question to survey 1, delete survey 1, add a question to survey 1
again. -/
def readdOps : List Op :=
  [Op.addQuestion 1 "text" "first" false [] (Time.utc 10), Op.deleteSurvey 1,
   Op.addQuestion 1 "text" "again" false [] (Time.utc 30)]

/-- Three questions added to survey 1, with a question added to survey 2 and
survey 2 deleted in between. -/
def growOps : List Op :=
  [Op.addQuestion 1 "text" "a" false [] (Time.utc 10),
   Op.addQuestion 2 "rating" "x" true [] (Time.utc 11),
   Op.addQuestion 1 "multiple_choice" "b" false ["yes", "no"] (Time.utc 12), Op.deleteSurvey 2,
   Op.addQuestion 1 "text" "c" false [] (Time.utc 13)]

/-- A database with survey 1 and its three questions (text, rating,
multiple choice). -/
def submitDB : DB :=
  { DB.empty with
    surveys := [{ ID := 1, Title := "Feedback", Description := "", IsActive := true,
                  CreatedAt := Time.utc 0, UpdatedAt := Time.utc 0, Questions := [] }]
    questions := [typedQuestion 1 "text", typedQuestion 2 "rating",
                  typedQuestion 3 "multiple_choice"] }

/-- A submitted form with values for questions 2 and 3 only. -/
def submitForm (key : String) : String :=
  if key = "question_2" then "5" else if key = "question_3" then "7" else ""

/-- A store whose rating query yields the largest `int` and 1. -/
def overflowStore : Store :=
  { Store.zero with
    pluckRatings := fun _ => { dest := [9223372036854775807, 1], err := none } }

/-- A store whose rating query yields the single rating 2^53 + 1. -/
def roundingStore : Store :=
  { Store.zero with pluckRatings := fun _ => { dest := [9007199254740993], err := none } }

/-- The answer with the given text written into response 1 for question 1 at
`unixSeconds` seconds after the epoch, by a clock whose zone has the given
offset. -/
def zonedAnswer (id : Nat) (text : String) (unixSeconds : Nat) (offset : Int) : Answer :=
  { ID := id, ResponseID := 1, QuestionID := 1, AnswerText := text, OptionID := none,
    Rating := none, CreatedAt := { unixNano := unixSeconds * 1000000000, offset := offset } }

/-- The answer written last in `fallBackDB`: 2024-11-03 01:10 at offset -05:00
(06:10 UTC). -/
def newestAnswer : Answer :=
  zonedAnswer 11 "newest" 1730614200 (-18000)

/-- A text question with 11 answers in one completed response, written across
the end of daylight saving time: ten at 2024-11-03 01:30 to 01:39 at offset
-04:00 (05:30 to 05:39 UTC), then `newestAnswer`. -/
def fallBackDB : DB :=
  { DB.empty with
    questions :=
      [{ ID := 1, SurveyID := 1, Type_ := "text", Question := "Comments?", Required := false,
         Order := 1, CreatedAt := Time.utc 0, UpdatedAt := Time.utc 0 }]
    responses :=
      [{ ID := 1, SurveyID := 1, UserID := none, IPAddress := "", UserAgent := "",
         StartedAt := Time.utc 0, CompletedAt := some (Time.utc 20), IsComplete := true }]
    answers :=
      (List.range 10).map
          (fun i => zonedAnswer (i + 1) ("answer " ++ toString i) (1730611800 + 60 * i) (-14400))
        ++ [newestAnswer] }

/-! ## Loop lemmas -/

theorem foldl_append_singleton {α β : Type} (f : α → β) (l : List α) (init : List β) :
    l.foldl (fun acc x => acc ++ [f x]) init = init ++ l.map f := by
  induction l generalizing init with
  | nil => simp
  | cons a l ih => simp [ih]

theorem foldl_append_if {α β : Type} (p : α → Prop) [DecidablePred p] (f : α → β)
    (l : List α) (init : List β) :
    l.foldl (fun acc x => if p x then acc ++ [f x] else acc) init
      = init ++ (l.filter (fun x => decide (p x))).map f := by
  induction l generalizing init with
  | nil => simp
  | cons a l ih =>
    by_cases h : p a
    · simp [ih, h]
    · simp [ih, h]

theorem foldl_add_eq_sum {α : Type} (g : α → Int) (l : List α) (a : Int) :
    l.foldl (fun t x => t + g x) a = a + (l.map g).sum := by
  induction l generalizing a with
  | nil => simp
  | cons b l ih => simp [ih, add_assoc]

theorem optionCounts_eq_map (s : Store) (options : List QOption) :
    optionCounts s options = options.map (fun o =>
      ({ OptionID := o.ID, OptionText := o.Text,
         Count := (s.countOptionAnswers o.ID).dest, Percentage := 0 } : OptionStat)) := by
  unfold optionCounts
  rw [foldl_append_singleton]
  simp

theorem optionTotal_eq_sum (stats : List OptionStat) :
    optionTotal stats = (stats.map (fun r => r.Count)).sum := by
  unfold optionTotal
  rw [foldl_add_eq_sum]
  simp

theorem optionTotal_optionCounts (s : Store) (options : List QOption) :
    optionTotal (optionCounts s options)
      = (options.map (fun o => (s.countOptionAnswers o.ID).dest)).sum := by
  rw [optionTotal_eq_sum, optionCounts_eq_map]
  simp [Function.comp_def]

/-! ## Survey-level statistics -/

/-- C1: `GetSurveyStats` returns a record with `TotalResponses` the completed
count `c`; `CompletionRate` is 0 when the started count `s` is 0 and
`c / s * 100` when `s > 0`. -/
theorem GetSurveyStats_completionRate (st : Store) (surveyID : Nat) :
    ∃ stats, GetSurveyStats st surveyID = .ok stats ∧
      stats.TotalResponses = (st.countCompleted surveyID).dest ∧
      ((st.countStarted surveyID).dest = 0 → stats.CompletionRate = 0) ∧
      (0 < (st.countStarted surveyID).dest → stats.CompletionRate =
        ((st.countCompleted surveyID).dest : ℚ) / ((st.countStarted surveyID).dest : ℚ) * 100) := by
  refine ⟨_, rfl, rfl, ?_, ?_⟩
  · intro h
    simp [h]
  · intro h
    simp [h]

/-- Scenario A for C1: 3 completed out of 5 started gives 60. -/
theorem GetSurveyStats_completionRate_witness :
    (0 : Int) < (scenarioA.countStarted 7).dest ∧
      ∃ stats, GetSurveyStats scenarioA 7 = .ok stats ∧ stats.TotalResponses = 3 ∧
        stats.CompletionRate = 60 := by
  refine ⟨by decide, ?_⟩
  obtain ⟨stats, h, h1, _, h3⟩ := GetSurveyStats_completionRate scenarioA 7
  refine ⟨stats, h, h1, ?_⟩
  rw [h3 (by decide)]
  norm_num [scenarioA]

/-! ## Option statistics -/

/-- C2: `getOptionStats` returns one record per option, in option order, with
the option's ID, text and count; with `total` the sum of the counts, every
`Percentage` is 0 when `total = 0` and `Count / total * 100` when `total > 0`. -/
theorem getOptionStats_records (s : Store) (questionID : Nat) :
    (getOptionStats s questionID).map (fun r => (r.OptionID, r.OptionText, r.Count))
        = ((s.findOptions questionID).dest).map
            (fun o => (o.ID, o.Text, (s.countOptionAnswers o.ID).dest)) ∧
      ((((s.findOptions questionID).dest).map
          (fun o => (s.countOptionAnswers o.ID).dest)).sum = 0 →
        ∀ r ∈ getOptionStats s questionID, r.Percentage = 0) ∧
      (0 < (((s.findOptions questionID).dest).map
          (fun o => (s.countOptionAnswers o.ID).dest)).sum →
        ∀ r ∈ getOptionStats s questionID, r.Percentage = (r.Count : ℚ) /
          (((((s.findOptions questionID).dest).map
            (fun o => (s.countOptionAnswers o.ID).dest)).sum : Int) : ℚ) * 100) := by
  refine ⟨?_, ?_, ?_⟩
  · unfold getOptionStats
    simp only [optionTotal_optionCounts]
    split_ifs <;> simp [optionCounts_eq_map, Function.comp_def]
  · intro h r hr
    unfold getOptionStats at hr
    simp only [optionTotal_optionCounts, h, lt_irrefl, if_false] at hr
    rw [optionCounts_eq_map] at hr
    obtain ⟨o, _, rfl⟩ := List.mem_map.1 hr
    rfl
  · intro h r hr
    unfold getOptionStats at hr
    simp only [optionTotal_optionCounts, h, if_true] at hr
    obtain ⟨r0, _, rfl⟩ := List.mem_map.1 hr
    rfl

/-- Scenario B for C2: counts 3 and 1 give 75 and 25. -/
theorem getOptionStats_records_witness :
    (0 : Int) < (((scenarioB.findOptions 1).dest).map
        (fun o => (scenarioB.countOptionAnswers o.ID).dest)).sum ∧
      getOptionStats scenarioB 1
        = [{ OptionID := 1, OptionText := "A", Count := 3, Percentage := 75 },
           { OptionID := 2, OptionText := "B", Count := 1, Percentage := 25 }] ∧
      ∀ r ∈ getOptionStats scenarioB 1, r.Percentage = (r.Count : ℚ) / 4 * 100 := by
  refine ⟨by decide, ?_, ?_⟩
  · simp [getOptionStats, optionCounts, optionTotal, scenarioB, Store.zero]
    norm_num
  · intro r hr
    have h := (getOptionStats_records scenarioB 1).2.2 (by decide) r hr
    rw [h]
    norm_num [scenarioB, Store.zero]

theorem sum_map_div_mul (l : List Int) (t : ℚ) :
    (l.map (fun (c : Int) => ((c : ℚ) / t * 100 : ℚ))).sum = ((l.sum : Int) : ℚ) / t * 100 := by
  induction l with
  | nil => simp
  | cons a l ih =>
    simp only [List.map_cons, List.sum_cons, ih]
    push_cast
    ring

/-- C7: the percentages of `getOptionStats` sum to exactly 100 when the total
of the counts is positive, and to 0 when the total is 0. -/
theorem getOptionStats_percentage_sum (s : Store) (questionID : Nat) :
    (0 < (((s.findOptions questionID).dest).map
          (fun o => (s.countOptionAnswers o.ID).dest)).sum →
        ((getOptionStats s questionID).map (fun r => r.Percentage)).sum = 100) ∧
      ((((s.findOptions questionID).dest).map
          (fun o => (s.countOptionAnswers o.ID).dest)).sum = 0 →
        ((getOptionStats s questionID).map (fun r => r.Percentage)).sum = 0) := by
  constructor
  · intro h
    unfold getOptionStats
    simp only [optionTotal_optionCounts, h, if_true]
    simp only [optionCounts_eq_map, List.map_map, Function.comp_def]
    have hs := sum_map_div_mul (((s.findOptions questionID).dest).map
      (fun o => (s.countOptionAnswers o.ID).dest))
      (((((s.findOptions questionID).dest).map
        (fun o => (s.countOptionAnswers o.ID).dest)).sum : Int) : ℚ)
    simp only [List.map_map, Function.comp_def] at hs
    rw [hs]
    have hne : (((((s.findOptions questionID).dest).map
        (fun o => (s.countOptionAnswers o.ID).dest)).sum : Int) : ℚ) ≠ 0 := by
      exact_mod_cast (ne_of_gt h)
    rw [div_self hne]
    norm_num
  · intro h
    unfold getOptionStats
    simp only [optionTotal_optionCounts, h, lt_irrefl, if_false]
    simp [optionCounts_eq_map, Function.comp_def]

/-- Scenario B for C7: the percentages 75 and 25 sum to 100. -/
theorem getOptionStats_percentage_sum_witness :
    (0 : Int) < (((scenarioB.findOptions 1).dest).map
        (fun o => (scenarioB.countOptionAnswers o.ID).dest)).sum ∧
      ((getOptionStats scenarioB 1).map (fun r => r.Percentage)).sum = 100 :=
  ⟨by decide, (getOptionStats_percentage_sum scenarioB 1).1 (by decide)⟩

/-! ## Rating statistics -/

theorem wrapInt_add (a b : Int) : wrapInt (wrapInt a + b) = wrapInt (a + b) := by
  unfold wrapInt
  omega

theorem wrapInt_of_range (a : Int) (h : a.natAbs < 2 ^ 53) : wrapInt a = a := by
  unfold wrapInt
  omega

theorem float64OfInt_exact (n : Int) (h : n.natAbs < 2 ^ 53) : float64OfInt n = (n : ℚ) := by
  unfold float64OfInt roundTo53
  simp only [h, if_true]
  split_ifs with hn
  · rw [Nat.cast_natAbs, abs_of_neg hn]
    simp
  · rw [Nat.cast_natAbs, abs_of_nonneg (not_lt.1 hn)]

theorem ratingLoop_cons (r : Int) (l : List Int) (init : Int × Int × Int) :
    ratingLoop (r :: l) init
      = ratingLoop l (wrapInt (init.1 + r), if r < init.2.1 then r else init.2.1,
          if r > init.2.2 then r else init.2.2) := rfl

theorem ratingLoop_sum (l : List Int) (init : Int × Int × Int) :
    (ratingLoop l init).1 = if l = [] then init.1 else wrapInt (init.1 + l.sum) := by
  induction l generalizing init with
  | nil => simp [ratingLoop]
  | cons r l ih =>
    rw [ratingLoop_cons, ih]
    by_cases hl : l = []
    · simp [hl]
    · simp only [hl, if_false, List.cons_ne_nil, List.sum_cons]
      rw [wrapInt_add, add_assoc]

theorem ratingLoop_min (l : List Int) (init : Int × Int × Int) :
    (ratingLoop l init).2.1 ≤ init.2.1 ∧ (∀ x ∈ l, (ratingLoop l init).2.1 ≤ x) ∧
      ((ratingLoop l init).2.1 = init.2.1 ∨ (ratingLoop l init).2.1 ∈ l) := by
  induction l generalizing init with
  | nil => simp [ratingLoop]
  | cons r l ih =>
    rw [ratingLoop_cons]
    obtain ⟨h1, h2, h3⟩ := ih (wrapInt (init.1 + r), if r < init.2.1 then r else init.2.1,
      if r > init.2.2 then r else init.2.2)
    simp only at h1 h3
    by_cases hr : r < init.2.1
    · simp only [hr, if_true] at h1 h3
      refine ⟨by simp only [hr, if_true]; omega, ?_, ?_⟩
      · intro x hx
        rcases List.mem_cons.1 hx with rfl | hx
        · simpa only [hr, if_true] using h1
        · exact h2 x hx
      · right
        rcases h3 with h3 | h3
        · simp only [hr, if_true]; rw [h3]; exact List.mem_cons_self _ _
        · simp only [hr, if_true]; exact List.mem_cons_of_mem _ h3
    · simp only [hr, if_false] at h1 h3
      refine ⟨by simpa only [hr, if_false] using h1, ?_, ?_⟩
      · intro x hx
        rcases List.mem_cons.1 hx with rfl | hx
        · simp only [hr, if_false]; omega
        · exact h2 x hx
      · rcases h3 with h3 | h3
        · left; simpa only [hr, if_false] using h3
        · right; simp only [hr, if_false]; exact List.mem_cons_of_mem _ h3

theorem ratingLoop_max (l : List Int) (init : Int × Int × Int) :
    init.2.2 ≤ (ratingLoop l init).2.2 ∧ (∀ x ∈ l, x ≤ (ratingLoop l init).2.2) ∧
      ((ratingLoop l init).2.2 = init.2.2 ∨ (ratingLoop l init).2.2 ∈ l) := by
  induction l generalizing init with
  | nil => simp [ratingLoop]
  | cons r l ih =>
    rw [ratingLoop_cons]
    obtain ⟨h1, h2, h3⟩ := ih (wrapInt (init.1 + r), if r < init.2.1 then r else init.2.1,
      if r > init.2.2 then r else init.2.2)
    simp only at h1 h3
    by_cases hr : r > init.2.2
    · simp only [hr, if_true] at h1 h3
      refine ⟨by simp only [hr, if_true]; omega, ?_, ?_⟩
      · intro x hx
        rcases List.mem_cons.1 hx with rfl | hx
        · simpa only [hr, if_true] using h1
        · exact h2 x hx
      · right
        rcases h3 with h3 | h3
        · simp only [hr, if_true]; rw [h3]; exact List.mem_cons_self _ _
        · simp only [hr, if_true]; exact List.mem_cons_of_mem _ h3
    · simp only [hr, if_false] at h1 h3
      refine ⟨by simpa only [hr, if_false] using h1, ?_, ?_⟩
      · intro x hx
        rcases List.mem_cons.1 hx with rfl | hx
        · simp only [hr, if_false]; omega
        · exact h2 x hx
      · rcases h3 with h3 | h3
        · left; simpa only [hr, if_false] using h3
        · right; simp only [hr, if_false]; exact List.mem_cons_of_mem _ h3

theorem roundTo53_rounds : roundTo53 9007199254740993 = 9007199254740992 := by decide

theorem roundTo53_minInt : roundTo53 9223372036854775808 = 9223372036854775808 := by decide

/-- C3 refuted: for ratings 9223372036854775807 and 1 the `int` sum wraps and
`Average` is -2^62, not sum / Count = 2^62; for the single rating 2^53 + 1 the
conversion to `float64` rounds and `Average` is 2^53, not the rating. -/
theorem getRatingStats_average_off :
    getRatingStats overflowStore 1
        = some { Average := -4611686018427387904, Min := 1, Max := 9223372036854775807,
                 Count := 2 } ∧
      (((overflowStore.pluckRatings 1).dest.sum : Int) : ℚ) / 2 = 4611686018427387904 ∧
      getRatingStats roundingStore 1
        = some { Average := 9007199254740992, Min := 9007199254740993,
                 Max := 9007199254740993, Count := 1 } ∧
      (((roundingStore.pluckRatings 1).dest.sum : Int) : ℚ) / 1 = 9007199254740993 := by
  have hw : wrapInt (wrapInt (0 + 9223372036854775807) + 1) = -9223372036854775808 := by
    decide
  have hw2 : wrapInt (0 + 9007199254740993) = 9007199254740993 := by decide
  have hf1 : float64OfInt (-9223372036854775808) = -9223372036854775808 := by
    simp [float64OfInt, roundTo53_minInt]
  have hf2 : float64OfInt 9007199254740993 = 9007199254740992 := by
    simp [float64OfInt, roundTo53_rounds]
  have hc2 : float64OfInt 2 = 2 := float64OfInt_exact 2 (by decide)
  have hc1 : float64OfInt 1 = 1 := float64OfInt_exact 1 (by decide)
  refine ⟨?_, ?_, ?_, ?_⟩
  · simp only [getRatingStats, overflowStore, Store.zero, ratingLoop, List.foldl_cons,
      List.foldl_nil, hw]
    norm_num [hf1, hc2]
  · norm_num [overflowStore, Store.zero]
  · simp only [getRatingStats, roundingStore, Store.zero, ratingLoop, List.foldl_cons,
      List.foldl_nil, hw2]
    norm_num [hf2, hc1]
  · norm_num [roundingStore, Store.zero]

/-- C3 amended: `getRatingStats` returns no record exactly when the rating
list is empty; for every non-empty list the record has `Count` the length,
`Min` the least value and `Max` the greatest value, and when the sum of the
values and the length are below 2^53 in magnitude (no `int` wrap-around, exact
conversion to `float64`) `Average` is the sum divided by `Count`. -/
theorem getRatingStats_summary (s : Store) (questionID : Nat) :
    (getRatingStats s questionID = none ↔ (s.pluckRatings questionID).dest = []) ∧
      ((s.pluckRatings questionID).dest ≠ [] →
        ∃ r, getRatingStats s questionID = some r ∧
          r.Count = ((s.pluckRatings questionID).dest.length : Int) ∧
          r.Min ∈ (s.pluckRatings questionID).dest ∧
          (∀ x ∈ (s.pluckRatings questionID).dest, r.Min ≤ x) ∧
          r.Max ∈ (s.pluckRatings questionID).dest ∧
          (∀ x ∈ (s.pluckRatings questionID).dest, x ≤ r.Max) ∧
          ((s.pluckRatings questionID).dest.sum.natAbs < 2 ^ 53 →
            (s.pluckRatings questionID).dest.length < 2 ^ 53 →
            r.Average = (((s.pluckRatings questionID).dest.sum : Int) : ℚ) / (r.Count : ℚ))) := by
  unfold getRatingStats
  cases hl : (s.pluckRatings questionID).dest with
  | nil => simp
  | cons r0 rest =>
    refine ⟨by simp, fun _ => ⟨_, rfl, rfl, ?_, ?_, ?_, ?_, ?_⟩⟩
    · rcases (ratingLoop_min (r0 :: rest) (0, r0, r0)).2.2 with h | h
      · simp only at h ⊢
        rw [h]; exact List.mem_cons_self _ _
      · exact h
    · exact (ratingLoop_min (r0 :: rest) (0, r0, r0)).2.1
    · rcases (ratingLoop_max (r0 :: rest) (0, r0, r0)).2.2 with h | h
      · simp only at h ⊢
        rw [h]; exact List.mem_cons_self _ _
      · exact h
    · exact (ratingLoop_max (r0 :: rest) (0, r0, r0)).2.1
    · intro hsum hlen
      have h1 : (ratingLoop (r0 :: rest) (0, r0, r0)).1 = (r0 :: rest).sum := by
        rw [ratingLoop_sum]
        simp only [List.cons_ne_nil, if_false, zero_add]
        exact wrapInt_of_range _ hsum
      have h2 : (((r0 :: rest).length : Int)).natAbs < 2 ^ 53 := by
        simpa using hlen
      simp only [h1]
      rw [float64OfInt_exact _ hsum, float64OfInt_exact _ h2]

/-- Scenario C for C3: ratings 4, 5, 3 give Count 3, Average 4, Min 3, Max 5. -/
theorem getRatingStats_summary_witness :
    (scenarioC.pluckRatings 1).dest ≠ [] ∧ (scenarioC.pluckRatings 1).dest.sum.natAbs < 2 ^ 53 ∧
      (scenarioC.pluckRatings 1).dest.length < 2 ^ 53 ∧
      getRatingStats scenarioC 1 = some { Average := 4, Min := 3, Max := 5, Count := 3 } := by
  have hsum : (scenarioC.pluckRatings 1).dest.sum.natAbs < 2 ^ 53 := by decide
  have hlen : (scenarioC.pluckRatings 1).dest.length < 2 ^ 53 := by decide
  refine ⟨by decide, hsum, hlen, ?_⟩
  obtain ⟨r, hr, hc, hmin, hminle, hmax, hmaxle, ha⟩ :=
    (getRatingStats_summary scenarioC 1).2 (by decide)
  rw [hr]
  have hC : r.Count = 3 := by simpa [scenarioC] using hc
  have hA : r.Average = 4 := by
    rw [ha hsum hlen, hC]; norm_num [scenarioC]
  have hMin : r.Min = 3 := by
    have h1 := hminle 3 (by simp [scenarioC])
    simp only [scenarioC, List.mem_cons, List.mem_nil_iff, or_false] at hmin
    omega
  have hMax : r.Max = 5 := by
    have h1 := hmaxle 5 (by simp [scenarioC])
    simp only [scenarioC, List.mem_cons, List.mem_nil_iff, or_false] at hmax
    omega
  cases r
  simp only at hC hA hMin hMax
  simp [hC, hA, hMin, hMax]

/-! ## Per-question dispatch -/

/-- Type-specific part of the record built for question `q`, as decided by
the type tag. -/
theorem questionStat_fields (s : Store) (q : Question) :
    (questionStat s q).QuestionID = q.ID ∧ (questionStat s q).QuestionType = q.Type_ ∧
      (questionStat s q).ResponseCount = (s.countAnswers q.ID).dest ∧
      ((q.Type_ = "multiple_choice" ∨ q.Type_ = "checkbox") →
        (questionStat s q).OptionStats = getOptionStats s q.ID ∧
        (questionStat s q).RatingStats = none ∧ (questionStat s q).TextAnswers = []) ∧
      (q.Type_ = "rating" →
        (questionStat s q).RatingStats = getRatingStats s q.ID ∧
        (questionStat s q).OptionStats = [] ∧ (questionStat s q).TextAnswers = []) ∧
      (q.Type_ = "text" →
        (questionStat s q).TextAnswers = getTextAnswers s q.ID 10 ∧
        (questionStat s q).OptionStats = [] ∧ (questionStat s q).RatingStats = none) ∧
      ((q.Type_ ≠ "multiple_choice" ∧ q.Type_ ≠ "checkbox" ∧ q.Type_ ≠ "rating" ∧
          q.Type_ ≠ "text") →
        (questionStat s q).OptionStats = [] ∧ (questionStat s q).RatingStats = none ∧
        (questionStat s q).TextAnswers = []) := by
  unfold questionStat
  refine ⟨?_, ?_, ?_, ?_, ?_, ?_, ?_⟩
  · split_ifs <;> rfl
  · split_ifs <;> rfl
  · split_ifs <;> rfl
  · intro h
    simp [h]
  · intro h
    simp [h]
  · intro h
    simp [h]
  · rintro ⟨h1, h2, h3, h4⟩
    simp [h1, h2, h3, h4]

theorem GetQuestionStats_ok (s : Store) (surveyID : Nat)
    (h : (s.findQuestions surveyID).err = none) :
    GetQuestionStats s surveyID = .ok ((s.findQuestions surveyID).dest.map (questionStat s)) := by
  unfold GetQuestionStats
  simp only [h]
  rw [foldl_append_singleton]
  simp

theorem GetQuestionStats_error (s : Store) (surveyID : Nat) (e : String)
    (h : (s.findQuestions surveyID).err = some e) :
    GetQuestionStats s surveyID = .error e := by
  unfold GetQuestionStats
  simp only [h]

theorem forall2_map_right {α β : Type} (R : α → β → Prop) (f : α → β) (l : List α)
    (h : ∀ a, R a (f a)) : List.Forall₂ R l (l.map f) := by
  induction l with
  | nil => exact List.Forall₂.nil
  | cons a l ih => exact List.Forall₂.cons (h a) ih

/-- C6: when the question query succeeds, `GetQuestionStats` returns no error
and one record per question, aligned with the questions; each record carries
`QuestionID`, `QuestionType` and `ResponseCount`, and its type-specific fields
follow the type tag alone: `multiple_choice` / `checkbox` fill only
`OptionStats`, `rating` only `RatingStats`, `text` only `TextAnswers`, and any
other tag leaves all three empty. -/
theorem GetQuestionStats_dispatch (s : Store) (surveyID : Nat)
    (h : (s.findQuestions surveyID).err = none) :
    ∃ stats, GetQuestionStats s surveyID = .ok stats ∧
      List.Forall₂
        (fun q r =>
          r.QuestionID = q.ID ∧ r.QuestionType = q.Type_ ∧
          r.ResponseCount = (s.countAnswers q.ID).dest ∧
          ((q.Type_ = "multiple_choice" ∨ q.Type_ = "checkbox") →
            r.OptionStats = getOptionStats s q.ID ∧ r.RatingStats = none ∧
            r.TextAnswers = []) ∧
          (q.Type_ = "rating" →
            r.RatingStats = getRatingStats s q.ID ∧ r.OptionStats = [] ∧
            r.TextAnswers = []) ∧
          (q.Type_ = "text" →
            r.TextAnswers = getTextAnswers s q.ID 10 ∧ r.OptionStats = [] ∧
            r.RatingStats = none) ∧
          ((q.Type_ ≠ "multiple_choice" ∧ q.Type_ ≠ "checkbox" ∧ q.Type_ ≠ "rating" ∧
              q.Type_ ≠ "text") →
            r.OptionStats = [] ∧ r.RatingStats = none ∧ r.TextAnswers = []))
        (s.findQuestions surveyID).dest stats :=
  ⟨_, GetQuestionStats_ok s surveyID h,
    forall2_map_right _ _ _ (fun q => questionStat_fields s q)⟩

/-- Witness for C6: a survey with one question of each type tag and one
unrecognised tag gets five records and no error. -/
theorem GetQuestionStats_dispatch_witness :
    (dispatchStore.findQuestions 1).err = none ∧
      ∃ stats, GetQuestionStats dispatchStore 1 = .ok stats ∧ stats.length = 5 := by
  refine ⟨rfl, ?_⟩
  obtain ⟨stats, hs, hf⟩ := GetQuestionStats_dispatch dispatchStore 1 rfl
  exact ⟨stats, hs, by rw [← hf.length_eq]; rfl⟩

/-! ## Store errors -/

/-- C4 at the failing input: the response counts, the answer count and the
text query of `failingStore` fail, yet `GetSurveyStats` and `GetQuestionStats`
return a nil error with the failed values replaced by zero and empty values. -/
theorem stats_drop_store_errors :
    (failingStore.countCompleted 1).err = some "database is locked" ∧
      GetSurveyStats failingStore 1
        = .ok { SurveyID := 1, TotalResponses := 0, CompletionRate := 0, AverageTime := 0 } ∧
      (failingStore.countAnswers 4).err = some "database is locked" ∧
      (failingStore.pluckTexts 4 10).err = some "database is locked" ∧
      GetQuestionStats failingStore 1
        = .ok [{ QuestionID := 4, QuestionType := "text", ResponseCount := 0,
                 OptionStats := [], TextAnswers := [], RatingStats := none }] := by
  refine ⟨rfl, ?_, rfl, rfl, ?_⟩
  · simp [GetSurveyStats, failingStore, Store.zero]
  · rw [GetQuestionStats_ok _ _ rfl]
    simp [failingStore, Store.zero, questionStat, getTextAnswers]

/-! ## Question order -/

/-- On a healthy database `GetQuestionStats` returns one record per question
row of the survey, in the order the store holds the rows. -/
theorem GetQuestionStats_toStore (db : DB) (surveyID : Nat) :
    GetQuestionStats db.toStore surveyID
      = .ok ((db.questions.filter (fun q => q.SurveyID = surveyID)).map
          (questionStat db.toStore)) :=
  GetQuestionStats_ok db.toStore surveyID rfl

/-- C5 refuted: in `unorderedDB` the record of question 1 (`Order` 2) comes
before the record of question 2 (`Order` 1). -/
theorem GetQuestionStats_not_ascending :
    ∃ stats, GetQuestionStats unorderedDB.toStore 1 = .ok stats ∧
      stats.map (fun r => r.QuestionID) = [1, 2] ∧
      unorderedDB.questions.map (fun q => (q.ID, q.SurveyID, q.Order)) = [(1, 1, 2), (2, 1, 1)] ∧
      ¬ List.Sorted (fun a b => a ≤ b)
          (stats.flatMap (fun r =>
            ((unorderedDB.questions.filter (fun q => q.ID = r.QuestionID)).map
              (fun q => q.Order)))) := by
  refine ⟨_, GetQuestionStats_toStore unorderedDB 1, ?_, ?_, ?_⟩
  · simp [unorderedDB, DB.empty, questionStat]
  · simp [unorderedDB, DB.empty]
  · simp [unorderedDB, DB.empty, questionStat]

/-- C5 amended: for every survey and store state `GetQuestionStats` returns
exactly one record per question of the survey, in the order in which the store
holds the question rows: the records are aligned, position by position, with
the rows the question query yields. -/
theorem GetQuestionStats_store_order (db : DB) (surveyID : Nat) :
    ∃ stats, GetQuestionStats db.toStore surveyID = .ok stats ∧
      List.Forall₂ (fun q r => r.QuestionID = q.ID ∧ r.QuestionType = q.Type_)
        (db.questions.filter (fun q => q.SurveyID = surveyID)) stats :=
  ⟨_, GetQuestionStats_toStore db surveyID,
    forall2_map_right _ _ _ (fun q => ⟨(questionStat_fields _ q).1, (questionStat_fields _ q).2.1⟩)⟩

/-! ## Text-answer sampling -/

theorem mem_joinAnswers (db : DB) (p : Answer × Response) :
    p ∈ joinAnswers db ↔ p.1 ∈ db.answers ∧ p.2 ∈ db.responses ∧ p.2.ID = p.1.ResponseID := by
  obtain ⟨a, r⟩ := p
  unfold joinAnswers
  simp only [List.mem_flatMap, List.mem_map, List.mem_filter, decide_eq_true_eq, Prod.mk.injEq]
  constructor
  · rintro ⟨a0, ha0, r0, ⟨hr0, hid⟩, rfl, rfl⟩
    exact ⟨ha0, hr0, hid⟩
  · rintro ⟨ha, hr, hid⟩
    exact ⟨a, ha, r, ⟨hr, hid⟩, rfl, rfl⟩

theorem mem_textRows (db : DB) (questionID : Nat) (p : Answer × Response) :
    p ∈ textRows db questionID ↔
      p.1 ∈ db.answers ∧ p.2 ∈ db.responses ∧ p.2.ID = p.1.ResponseID ∧
        p.1.QuestionID = questionID ∧ p.2.IsComplete = true ∧ p.1.AnswerText ≠ "" := by
  unfold textRows
  simp only [List.mem_filter, mem_joinAnswers, decide_eq_true_eq]
  tauto

theorem storedLE_total (a b : Time) : Time.storedLE a b ∨ Time.storedLE b a := by
  unfold Time.storedLE
  omega

theorem storedLE_trans (a b c : Time) (h1 : Time.storedLE a b) (h2 : Time.storedLE b c) :
    Time.storedLE a c := by
  unfold Time.storedLE at *
  omega

/-- Between times of one zone offset the stored order is the order of the
instants. -/
theorem storedLE_same_offset (a b : Time) (h : a.offset = b.offset) :
    Time.storedLE a b ↔ a.unixNano ≤ b.unixNano := by
  have hz : a.zoneKey = b.zoneKey := by
    unfold Time.zoneKey
    rw [h]
  unfold Time.storedLE Time.wall
  rw [hz, h]
  omega

theorem orderByCreatedAtDesc_sorted (rows : List (Answer × Response)) :
    List.Sorted (fun x y => Time.storedLE y.1.CreatedAt x.1.CreatedAt)
      (orderByCreatedAtDesc rows) := by
  haveI : IsTotal (Answer × Response) (fun x y => Time.storedLE y.1.CreatedAt x.1.CreatedAt) :=
    ⟨fun x y => storedLE_total y.1.CreatedAt x.1.CreatedAt⟩
  haveI : IsTrans (Answer × Response) (fun x y => Time.storedLE y.1.CreatedAt x.1.CreatedAt) :=
    ⟨fun _ _ _ h1 h2 => storedLE_trans _ _ _ h2 h1⟩
  exact List.sorted_insertionSort _ rows

theorem orderByCreatedAtDesc_perm (rows : List (Answer × Response)) :
    (orderByCreatedAtDesc rows).Perm rows :=
  List.perm_insertionSort _ rows

/-- What a healthy store yields for the statement of `getTextAnswers`: at
most `limit` rows, all selected by the `Where` clause, in descending order of
the stored `created_at` text, no row left out coming after a returned row in
that order, and exactly `limit` rows when more than `limit` qualify. -/
theorem recentTextRows_spec (db : DB) (questionID limit : Nat) :
    (recentTextRows db questionID limit).length ≤ limit ∧
      (∀ p ∈ recentTextRows db questionID limit,
        p.1 ∈ db.answers ∧ p.2 ∈ db.responses ∧ p.2.ID = p.1.ResponseID ∧
          p.1.QuestionID = questionID ∧ p.2.IsComplete = true ∧ p.1.AnswerText ≠ "") ∧
      List.Sorted (fun x y => Time.storedLE y.1.CreatedAt x.1.CreatedAt)
        (recentTextRows db questionID limit) ∧
      (∃ rest, (recentTextRows db questionID limit ++ rest).Perm (textRows db questionID) ∧
        ∀ a ∈ recentTextRows db questionID limit, ∀ b ∈ rest,
          Time.storedLE b.1.CreatedAt a.1.CreatedAt) ∧
      (limit < (textRows db questionID).length →
        (recentTextRows db questionID limit).length = limit) := by
  have hs := orderByCreatedAtDesc_sorted (textRows db questionID)
  have hp := orderByCreatedAtDesc_perm (textRows db questionID)
  refine ⟨?_, ?_, ?_, ?_, ?_⟩
  · unfold recentTextRows
    simp
  · intro p hp1
    have h1 : p ∈ orderByCreatedAtDesc (textRows db questionID) :=
      List.mem_of_mem_take hp1
    exact (mem_textRows db questionID p).1 (hp.subset h1)
  · exact List.Pairwise.sublist (List.take_sublist _ _) hs
  · refine ⟨(orderByCreatedAtDesc (textRows db questionID)).drop limit, ?_, ?_⟩
    · unfold recentTextRows
      rw [List.take_append_drop]
      exact hp
    · unfold recentTextRows
      have h2 := hs
      rw [← List.take_append_drop limit (orderByCreatedAtDesc (textRows db questionID))] at h2
      exact fun a ha b hb => (List.pairwise_append.1 h2).2.2 a ha b hb
  · intro h
    unfold recentTextRows
    rw [List.length_take, hp.length_eq]
    omega

/-- Scenario E evaluated: with all 15 answers written in one zone, the 10
newest are returned, newest first. -/
theorem getTextAnswers_scenarioE :
    getTextAnswers scenarioE.toStore 1 10
      = [15, 14, 13, 12, 11, 10, 9, 8, 7, 6].map (fun t => (textAnswerAt t).AnswerText) := by
  decide

/-- C8 at the failing input: in `fallBackDB` the answer "newest" is a
non-empty answer of text question 1 in a completed response and was written
after all ten others, yet `GetQuestionStats` attaches the ten others (latest
wall-clock reading first) and leaves "newest" out. -/
theorem getTextAnswers_drops_newest :
    newestAnswer ∈ fallBackDB.answers ∧
      (∀ a ∈ fallBackDB.answers, a ≠ newestAnswer →
        a.CreatedAt.unixNano < newestAnswer.CreatedAt.unixNano) ∧
      (∃ r ∈ fallBackDB.responses, (newestAnswer, r) ∈ textRows fallBackDB 1) ∧
      GetQuestionStats fallBackDB.toStore 1
        = .ok [{ QuestionID := 1, QuestionType := "text", ResponseCount := 11,
                 OptionStats := [],
                 TextAnswers := ["answer 9", "answer 8", "answer 7", "answer 6", "answer 5",
                                 "answer 4", "answer 3", "answer 2", "answer 1", "answer 0"],
                 RatingStats := none }] := by
  refine ⟨by decide, by decide, by decide, ?_⟩
  rw [GetQuestionStats_toStore]
  rfl

/-! ## Question order numbers -/

theorem foldl_max_spec (l : List Int) (init : Int) :
    init ≤ l.foldl max init ∧ (∀ x ∈ l, x ≤ l.foldl max init) ∧
      (l.foldl max init = init ∨ l.foldl max init ∈ l) := by
  induction l generalizing init with
  | nil => simp
  | cons a l ih =>
    obtain ⟨h1, h2, h3⟩ := ih (max init a)
    simp only [List.foldl_cons]
    refine ⟨le_trans (le_max_left _ _) h1, ?_, ?_⟩
    · intro x hx
      rcases List.mem_cons.1 hx with rfl | hx
      · exact le_trans (le_max_right _ _) h1
      · exact h2 x hx
    · rcases h3 with h3 | h3
      · rcases max_choice init a with hm | hm
        · left; rw [h3, hm]
        · right; rw [h3, hm]; exact List.mem_cons_self _ _
      · right; exact List.mem_cons_of_mem _ h3

theorem maxOrder_nil (db : DB) (surveyID : Nat)
    (h : db.questions.filter (fun q => q.SurveyID = surveyID) = []) :
    maxOrder db surveyID = 0 := by
  unfold maxOrder
  rw [h]
  rfl

theorem maxOrder_ge (db : DB) (surveyID : Nat) :
    ∀ x ∈ db.questions.filter (fun q => q.SurveyID = surveyID), x.Order ≤ maxOrder db surveyID := by
  intro x hx
  unfold maxOrder
  have hmem : x.Order ∈ (db.questions.filter (fun q => q.SurveyID = surveyID)).map
      (fun q => q.Order) := List.mem_map.2 ⟨x, hx, rfl⟩
  cases hl : (db.questions.filter (fun q => q.SurveyID = surveyID)).map (fun q => q.Order) with
  | nil => rw [hl] at hmem; cases hmem
  | cons o os =>
    rw [hl] at hmem
    obtain ⟨h1, h2, _⟩ := foldl_max_spec os o
    rcases List.mem_cons.1 hmem with h | h
    · rw [h]; exact h1
    · exact h2 _ h

theorem maxOrder_mem (db : DB) (surveyID : Nat)
    (h : db.questions.filter (fun q => q.SurveyID = surveyID) ≠ []) :
    ∃ m ∈ db.questions.filter (fun q => q.SurveyID = surveyID), maxOrder db surveyID = m.Order := by
  unfold maxOrder
  cases hl : (db.questions.filter (fun q => q.SurveyID = surveyID)).map (fun q => q.Order) with
  | nil => exact absurd (List.map_eq_nil_iff.1 hl) h
  | cons o os =>
    have hmem : os.foldl max o ∈ (db.questions.filter (fun q => q.SurveyID = surveyID)).map
        (fun q => q.Order) := by
      rw [hl]
      rcases (foldl_max_spec os o).2.2 with h3 | h3
      · rw [h3]; exact List.mem_cons_self _ _
      · exact List.mem_cons_of_mem _ h3
    obtain ⟨m, hm, hmo⟩ := List.mem_map.1 hmem
    exact ⟨m, hm, hmo.symm⟩

theorem foldl_options_questions {α : Type} (f : DB → α → List QOption) (l : List α) (d : DB) :
    (l.foldl (fun d x => { d with options := d.options ++ f d x }) d).questions
      = d.questions := by
  induction l generalizing d with
  | nil => rfl
  | cons a l ih => rw [List.foldl_cons, ih]

/-- What one `AddQuestion` call does to table `questions`. -/
theorem AddQuestion_result (db : DB) (surveyID : Nat) (questionType question : String)
    (required : Bool) (options : List String) (now : Time) :
    ∃ db1 q, AddQuestion db surveyID questionType question required options now = (db1, .ok q) ∧
      db1.questions = db.questions ++ [q] ∧ q.SurveyID = surveyID ∧
      q.Order = maxOrder db surveyID + 1 := by
  refine ⟨_, _, rfl, ?_, rfl, rfl⟩
  exact foldl_options_questions
    (fun d (io : Nat × String) =>
      [{ ID := nextID (d.options.map (fun x => x.ID)),
         QuestionID := nextID (db.questions.map (fun x => x.ID)),
         Text := io.2, Order := (io.1 : Int) + 1, CreatedAt := now }]) _ _

theorem DeleteSurvey_questions_other (db : DB) (id surveyID : Nat) (h : id ≠ surveyID) :
    (DeleteSurvey db id).1.questions.filter (fun q => q.SurveyID = surveyID)
      = db.questions.filter (fun q => q.SurveyID = surveyID) := by
  unfold DeleteSurvey
  simp only [List.filter_filter]
  congr 1
  funext q
  by_cases hq : q.SurveyID = surveyID
  · have : surveyID ≠ id := fun h2 => h h2.symm
    simp [hq, this]
  · simp [hq]

/-- Along a sequence that never deletes survey `surveyID`, the `Order`
values assigned to its questions increase strictly and stay above the `Order`
of every question of the survey already stored. -/
theorem assignedOrders_increasing (surveyID : Nat) (ops : List Op) :
    ∀ db : DB, (∀ op ∈ ops, op ≠ Op.deleteSurvey surveyID) →
      List.Pairwise (fun a b => a < b) (assignedOrders surveyID db ops) ∧
      ∀ o ∈ assignedOrders surveyID db ops,
        ∀ x ∈ db.questions.filter (fun q => q.SurveyID = surveyID), x.Order < o := by
  induction ops with
  | nil =>
    intro db _
    simp [assignedOrders]
  | cons op ops ih =>
    intro db hops
    have hrest : ∀ op1 ∈ ops, op1 ≠ Op.deleteSurvey surveyID :=
      fun op1 h1 => hops op1 (List.mem_cons_of_mem _ h1)
    cases op with
    | deleteSurvey id =>
      have hid : id ≠ surveyID := by
        intro h
        exact hops (Op.deleteSurvey id) (List.mem_cons_self _ _) (by rw [h])
      obtain ⟨h1, h2⟩ := ih (DeleteSurvey db id).1 hrest
      rw [DeleteSurvey_questions_other db id surveyID hid] at h2
      exact ⟨h1, h2⟩
    | addQuestion sid questionType question required options now =>
      obtain ⟨db1, q, hadd, hqs, hsid, hord⟩ :=
        AddQuestion_result db sid questionType question required options now
      obtain ⟨h1, h2⟩ := ih db1 hrest
      simp only [assignedOrders, hadd]
      by_cases hs : sid = surveyID
      · have hfil : db1.questions.filter (fun q => q.SurveyID = surveyID)
            = db.questions.filter (fun q => q.SurveyID = surveyID) ++ [q] := by
          rw [hqs, List.filter_append]
          simp [hsid, hs]
        rw [hfil] at h2
        have hnew : ∀ x ∈ db.questions.filter (fun q => q.SurveyID = surveyID),
            x.Order < q.Order := by
          intro x hx
          have := maxOrder_ge db surveyID x hx
          rw [hord, hs]
          omega
        simp only [hs, if_true, List.singleton_append]
        refine ⟨List.pairwise_cons.2 ⟨?_, h1⟩, ?_⟩
        · intro o ho
          exact h2 o ho q (by simp)
        · intro o ho x hx
          rcases List.mem_cons.1 ho with rfl | ho
          · exact hnew x hx
          · exact h2 o ho x (List.mem_append_left _ hx)
      · have hfil : db1.questions.filter (fun q => q.SurveyID = surveyID)
            = db.questions.filter (fun q => q.SurveyID = surveyID) := by
          rw [hqs, List.filter_append]
          simp [hsid, hs]
        rw [hfil] at h2
        simp only [hs, if_false, List.nil_append]
        exact ⟨h1, h2⟩

/-- C9 refuted: add a question to survey 1, delete survey 1, add a question
again; both questions get `Order` 1, so the value is reused after deletion. -/
theorem assignedOrders_reused_after_delete :
    assignedOrders 1 DB.empty readdOps = [1, 1] ∧
      ¬ List.Pairwise (fun a b => a < b) (assignedOrders 1 DB.empty readdOps) := by
  have h : assignedOrders 1 DB.empty readdOps = [1, 1] := by decide
  exact ⟨h, by rw [h]; decide⟩

/-- C9 amended: each `AddQuestion` assigns `Order` = 1 + the maximum `Order`
among the questions of the survey in the store (1 when there are none), which
is strictly greater than the `Order` of each of them; and along every sequence
of `AddQuestion` and `DeleteSurvey` operations that does not delete this
survey, the `Order` assigned is strictly greater than every `Order` assigned
to a question of the survey earlier in the sequence. -/
theorem AddQuestion_order (db : DB) (surveyID : Nat) (questionType question : String)
    (required : Bool) (options : List String) (now : Time) (ops : List Op)
    (hops : ∀ op ∈ ops, op ≠ Op.deleteSurvey surveyID) :
    (∃ db1 q, AddQuestion db surveyID questionType question required options now
          = (db1, .ok q) ∧
        db1.questions = db.questions ++ [q] ∧
        (db.questions.filter (fun x => x.SurveyID = surveyID) = [] → q.Order = 1) ∧
        (db.questions.filter (fun x => x.SurveyID = surveyID) ≠ [] →
          ∃ m ∈ db.questions.filter (fun x => x.SurveyID = surveyID),
            (∀ x ∈ db.questions.filter (fun x => x.SurveyID = surveyID), x.Order ≤ m.Order) ∧
            q.Order = m.Order + 1) ∧
        (∀ x ∈ db.questions.filter (fun x => x.SurveyID = surveyID), x.Order < q.Order)) ∧
      List.Pairwise (fun a b => a < b) (assignedOrders surveyID db ops) := by
  refine ⟨?_, (assignedOrders_increasing surveyID ops db hops).1⟩
  obtain ⟨db1, q, hadd, hqs, _, hord⟩ :=
    AddQuestion_result db surveyID questionType question required options now
  refine ⟨db1, q, hadd, hqs, ?_, ?_, ?_⟩
  · intro h
    rw [hord, maxOrder_nil db surveyID h]
    rfl
  · intro h
    obtain ⟨m, hm, hmo⟩ := maxOrder_mem db surveyID h
    refine ⟨m, hm, ?_, by rw [hord, hmo]⟩
    intro x hx
    rw [← hmo]
    exact maxOrder_ge db surveyID x hx
  · intro x hx
    have := maxOrder_ge db surveyID x hx
    rw [hord]
    omega

/-- Witness for C9: with survey 2 deleted in between, the three questions
added to survey 1 get the orders 1, 2, 3. -/
theorem AddQuestion_order_witness :
    (∀ op ∈ growOps, op ≠ Op.deleteSurvey 1) ∧
      assignedOrders 1 DB.empty growOps = [1, 2, 3] ∧
      List.Pairwise (fun a b => a < b) (assignedOrders 1 DB.empty growOps) := by
  have hops : ∀ op ∈ growOps, op ≠ Op.deleteSurvey 1 := by
    intro op hop
    simp only [growOps, List.mem_cons, List.mem_nil_iff, or_false] at hop
    rcases hop with rfl | rfl | rfl | rfl | rfl <;> simp
  exact ⟨hops, by decide,
    (AddQuestion_order DB.empty 1 "text" "a" false [] (Time.utc 10) growOps hops).2⟩

/-! ## Response submission -/

theorem collectAnswers_eq (questions : List Question) (form : String → String) :
    collectAnswers questions form
      = (questions.filter (fun q => decide (form (formKey q.ID) ≠ ""))).map
          (fun q => ({ QuestionID := q.ID, AnswerText := form (formKey q.ID),
                       OptionID := none, Rating := none } : AnswerInput)) := by
  unfold collectAnswers
  have h := foldl_append_if (fun q : Question => form (formKey q.ID) ≠ "")
    (fun q => ({ QuestionID := q.ID, AnswerText := form (formKey q.ID),
                 OptionID := none, Rating := none } : AnswerInput)) questions []
  simpa using h

theorem foldl_answers_spec (responseID : Nat) (now : Time) (answers : List AnswerInput)
    (d : DB) :
    ∃ rows,
      (answers.foldl
        (fun d answerInput =>
          { d with answers := d.answers ++
              [answerRow (nextID (d.answers.map (fun x => x.ID))) responseID now answerInput] })
        d).answers = d.answers ++ rows ∧
      List.Forall₂
        (fun (i : AnswerInput) (a : Answer) =>
          a.ResponseID = responseID ∧ a.QuestionID = i.QuestionID ∧
            a.AnswerText = i.AnswerText ∧ a.OptionID = i.OptionID ∧ a.Rating = i.Rating)
        answers rows := by
  induction answers generalizing d with
  | nil => exact ⟨[], by simp, List.Forall₂.nil⟩
  | cons i is ih =>
    obtain ⟨rows, h1, h2⟩ := ih
      { d with answers := d.answers ++
          [answerRow (nextID (d.answers.map (fun x => x.ID))) responseID now i] }
    refine ⟨answerRow (nextID (d.answers.map (fun x => x.ID))) responseID now i :: rows, ?_,
      List.Forall₂.cons ⟨rfl, rfl, rfl, rfl, rfl⟩ h2⟩
    rw [List.foldl_cons, h1]
    simp

/-- What `SubmitResponse` stores: one answer row per input, in input order,
appended to table `answers`, each carrying the input's fields unchanged. -/
theorem SubmitResponse_stores (db : DB) (surveyID : Nat) (userID : Option String)
    (ipAddress userAgent : String) (answers : List AnswerInput) (now : Time) :
    ∃ db1 response rows,
      SubmitResponse db surveyID userID ipAddress userAgent answers now = (db1, .ok response) ∧
      db1.answers = db.answers ++ rows ∧
      List.Forall₂
        (fun (i : AnswerInput) (a : Answer) =>
          a.ResponseID = response.ID ∧ a.QuestionID = i.QuestionID ∧
            a.AnswerText = i.AnswerText ∧ a.OptionID = i.OptionID ∧ a.Rating = i.Rating)
        answers rows := by
  obtain ⟨rows, h1, h2⟩ := foldl_answers_spec (nextID (db.responses.map (fun x => x.ID))) now
    answers
    { db with responses := db.responses ++
        [{ ID := nextID (db.responses.map (fun x => x.ID)), SurveyID := surveyID,
           UserID := userID, IPAddress := ipAddress, UserAgent := userAgent,
           StartedAt := now, CompletedAt := some now, IsComplete := true }] }
  exact ⟨_, _, rows, rfl, h1, h2⟩

/-- C10: when the route parameter parses and the survey exists,
`HandleSurveySubmit` passes to `SubmitResponse` the list holding, in question
order, one answer for each question whose form value `question_<ID>` is
non-empty and none for the others, each with the form value as `AnswerText`
and no `OptionID` and no `Rating`; `SubmitResponse` appends one row per answer
to table `answers` with those fields unchanged. -/
theorem HandleSurveySubmit_answers (db : DB) (idStr : String) (form : String → String)
    (ip userAgent : String) (now : Time) (id : Nat) (survey : Survey)
    (hid : ParseUint idStr = some id) (hsurvey : GetSurvey db id = .ok survey) :
    survey.Questions = db.questions.filter (fun q => q.SurveyID = id) ∧
      collectAnswers survey.Questions form
        = (survey.Questions.filter (fun q => decide (form (formKey q.ID) ≠ ""))).map
            (fun q => ({ QuestionID := q.ID, AnswerText := form (formKey q.ID),
                         OptionID := none, Rating := none } : AnswerInput)) ∧
      ∃ db1 response rows,
        SubmitResponse db id none ip userAgent (collectAnswers survey.Questions form) now
          = (db1, .ok response) ∧
        HandleSurveySubmit db idStr form ip userAgent now
          = (db1, .Redirect ("/surveys/" ++ toString id ++ "/results")) ∧
        db1.answers = db.answers ++ rows ∧
        List.Forall₂
          (fun (i : AnswerInput) (a : Answer) =>
            a.ResponseID = response.ID ∧ a.QuestionID = i.QuestionID ∧
              a.AnswerText = i.AnswerText ∧ a.OptionID = i.OptionID ∧ a.Rating = i.Rating)
          (collectAnswers survey.Questions form) rows := by
  refine ⟨?_, collectAnswers_eq _ _, ?_⟩
  · unfold GetSurvey at hsurvey
    split at hsurvey
    · cases hsurvey
    · cases hsurvey
      rfl
  · obtain ⟨db1, response, rows, h1, h2, h3⟩ :=
      SubmitResponse_stores db id none ip userAgent (collectAnswers survey.Questions form) now
    refine ⟨db1, response, rows, h1, ?_, h2, h3⟩
    unfold HandleSurveySubmit
    simp only [hid, hsurvey, h1]

/-- Witness for C10: a form with values for questions 2 and 3 of survey 1
stores two answers, text only, whatever the question types. -/
theorem HandleSurveySubmit_answers_witness :
    ParseUint "1" = some 1 ∧
      (∃ survey, GetSurvey submitDB 1 = .ok survey ∧
        collectAnswers survey.Questions submitForm
          = [{ QuestionID := 2, AnswerText := "5", OptionID := none, Rating := none },
             { QuestionID := 3, AnswerText := "7", OptionID := none, Rating := none }]) ∧
      (HandleSurveySubmit submitDB "1" submitForm "10.0.0.1" "curl" (Time.utc 50)).1.answers
        = [{ ID := 1, ResponseID := 1, QuestionID := 2, AnswerText := "5", OptionID := none,
             Rating := none, CreatedAt := Time.utc 50 },
           { ID := 2, ResponseID := 1, QuestionID := 3, AnswerText := "7", OptionID := none,
             Rating := none, CreatedAt := Time.utc 50 }] := by
  have hid : ParseUint "1" = some 1 := by decide
  have hsurvey : GetSurvey submitDB 1
      = .ok { ID := 1, Title := "Feedback", Description := "", IsActive := true,
              CreatedAt := Time.utc 0, UpdatedAt := Time.utc 0,
              Questions := [typedQuestion 1 "text", typedQuestion 2 "rating",
                            typedQuestion 3 "multiple_choice"] } := by rfl
  obtain ⟨_, hc, _⟩ :=
    HandleSurveySubmit_answers submitDB "1" submitForm "10.0.0.1" "curl" (Time.utc 50) 1 _ hid hsurvey
  refine ⟨hid, ⟨_, hsurvey, ?_⟩, by decide⟩
  rw [hc]
  decide

end WhaleSurvey
